import Mathlib

/-!
Verification of the rule-matching engine of the go-client repository:
a shallow embedding of the matcher variants present in the source
(`GreaterThanOrEqualToMatcher`, `RegexMatcher`), the operand-resolution
base, a model of the `PART_OF_SET` matcher and of the client-side key
validation, together with theorems settling the specified properties.
-/

namespace SplitGo

/-- Embedding of the dynamically-typed Go values (`interface{}`) that can
appear in an attribute map or as a resolved operand: strings, the integer
widths `int`, `int64` and `int32`, `float64`, booleans and string slices. -/
inductive GoValue where
  | str (s : String)
  | int (n : Int)
  | int64 (n : Int)
  | int32 (n : Int)
  | float64 (q : Rat)
  | bool (b : Bool)
  | strList (l : List String)
deriving DecidableEq

/-- Embedding of the shared base matcher struct: the `negate` flag and the
optional `attributeName` (both set by every `New*Matcher` constructor). -/
structure Matcher where
  negate : Bool
  attributeName : Option String
deriving DecidableEq

/-- Modelled from the spec: the shared operand-resolution method
`matchingKey` of the base matcher, whose Go implementation is not under
src (only its callers are). If `attributeName` is set, the operand is
looked up by that name in the attribute map and a missing attribute is an
error; otherwise the matching key itself is the operand. -/
def Matcher.matchingKey (m : Matcher) (key : String)
    (attributes : List (String × GoValue)) : Except Unit GoValue :=
  match m.attributeName with
  | none => .ok (.str key)
  | some a =>
    match attributes.lookup a with
    | some v => .ok v
    | none => .error ()

namespace datatypes

/-- Modelled from the spec: the comparison-data-type tag for raw numeric
comparison (the `datatypes` constants file is not under src). -/
def Number : String := "NUMBER"

/-- Modelled from the spec: the comparison-data-type tag for day-granular
datetime comparison. -/
def Datetime : String := "DATETIME"

/-- Modelled from the spec: `ZeroSecondsTS` normalizes a UTC timestamp (in
seconds) by truncating it to the start of its UTC day, zeroing hours,
minutes and seconds; its implementation is not under src. -/
def ZeroSecondsTS (ts : Int) : Int := ts - ts % 86400

end datatypes

/-- Embedding of `GreaterThanOrEqualToMatcher`: the embedded base matcher
plus the comparison-data-type tag and the stored `int64` comparison value. -/
structure GreaterThanOrEqualToMatcher where
  toMatcher : Matcher
  ComparisonDataType : String
  ComparisonValue : Int
deriving DecidableEq

/-- The `int64`-or-`int` type-assertion sequence at the start of
`GreaterThanOrEqualToMatcher.Match`: the assertion `matchingRaw.(int64)`
followed, on failure, by `matchingRaw.(int)` widened to `int64`. Every
other dynamic type fails. -/
def goAssertInt64OrInt : GoValue → Option Int
  | .int64 n => some n
  | .int n => some n
  | _ => none

/-- Embedding of `GreaterThanOrEqualToMatcher.Match`: resolve the operand
(failure gives false), assert it to `int64` or `int` (failure gives false),
then compare per the comparison-data-type tag — raw integers for `Number`,
day-truncated values for `Datetime`, false for any other tag. -/
def GreaterThanOrEqualToMatcher.Match (m : GreaterThanOrEqualToMatcher)
    (key : String) (attributes : List (String × GoValue))
    (bucketingKey : Option String) : Bool :=
  match m.toMatcher.matchingKey key attributes with
  | .error _ => false
  | .ok matchingRaw =>
    match goAssertInt64OrInt matchingRaw with
    | none => false
    | some matchingValue =>
      if m.ComparisonDataType = datatypes.Number then
        decide (m.ComparisonValue ≤ matchingValue)
      else if m.ComparisonDataType = datatypes.Datetime then
        decide (datatypes.ZeroSecondsTS m.ComparisonValue ≤
                datatypes.ZeroSecondsTS matchingValue)
      else false

/-- Embedding of `NewGreaterThanOrEqualToMatcher`: stores the negate flag
and attribute name in the embedded base matcher and the comparison value
and data type in the variant. -/
def NewGreaterThanOrEqualToMatcher (negate : Bool) (cmpVal : Int)
    (cmpType : String) (attributeName : Option String) :
    GreaterThanOrEqualToMatcher :=
  { toMatcher := { negate := negate, attributeName := attributeName }
    ComparisonValue := cmpVal
    ComparisonDataType := cmpType }

/-- Modelled from the spec: the final evaluation step of a matcher (not
under src; only the constructors storing `negate` are) applies the negate
flag to the comparison result: final result = comparison result XOR negate. -/
def GreaterThanOrEqualToMatcher.evaluate (m : GreaterThanOrEqualToMatcher)
    (key : String) (attributes : List (String × GoValue))
    (bucketingKey : Option String) : Bool :=
  xor (m.Match key attributes bucketingKey) m.toMatcher.negate

/-- Syntax of the regular-expression fragment used to model the external
`regexp` library: the empty language, the empty string, a literal
character, the any-character wildcard, concatenation, alternation and
Kleene star. -/
inductive RE where
  | fail
  | eps
  | chr (c : Char)
  | any
  | seq (a b : RE)
  | alt (a b : RE)
  | star (a : RE)
deriving DecidableEq

/-- Whether a regular expression accepts the empty string. -/
def RE.nullable : RE → Bool
  | .fail => false
  | .eps => true
  | .chr _ => false
  | .any => false
  | .seq a b => a.nullable && b.nullable
  | .alt a b => a.nullable || b.nullable
  | .star _ => true

/-- Brzozowski derivative of a regular expression by one character. -/
def RE.deriv : RE → Char → RE
  | .fail, _ => .fail
  | .eps, _ => .fail
  | .chr c, d => if c = d then .eps else .fail
  | .any, _ => .eps
  | .seq a b, c =>
    if a.nullable then .alt (.seq (a.deriv c) b) (b.deriv c)
    else .seq (a.deriv c) b
  | .alt a b, c => .alt (a.deriv c) (b.deriv c)
  | .star a, c => .seq (a.deriv c) (.star a)

/-- Derivative-based full match of a regular expression against a whole
character list. -/
def reMatchList (r : RE) : List Char → Bool
  | [] => r.nullable
  | c :: cs => reMatchList (r.deriv c) cs

/-- A compiled pattern of the external `regexp` library, modelled as a
regular expression body plus the pattern's own optional start and end
anchors. -/
structure GoRegexp where
  re : RE
  anchStart : Bool
  anchEnd : Bool
deriving DecidableEq

/-- Metacharacters the modelled compiler does not accept as literal body
characters. -/
def regexMetaChars : List Char :=
  ['(', ')', '|', '*', '^', '$', '\\', '[', ']', '+', '?', '{', '}']

/-- One body character as an atom: the wildcard for a dot, a literal for an
ordinary character, a compile failure for an unsupported metacharacter. -/
def regexCharAtom (c : Char) : Option RE :=
  if c = '.' then some .any
  else if regexMetaChars.contains c then none
  else some (.chr c)

/-- Parse the anchor-free body of a pattern: a sequence of atoms, each
optionally followed by a Kleene star. -/
def regexParseBody : List Char → Option RE
  | [] => some .eps
  | [c] => regexCharAtom c
  | c :: d :: rest =>
    match regexCharAtom c with
    | none => none
    | some a =>
      if d = '*' then (regexParseBody rest).map (fun r => RE.seq (.star a) r)
      else (regexParseBody (d :: rest)).map (fun r => RE.seq a r)

/-- Modelled from the spec: compilation in the external `regexp` library,
on the pattern fragment made of literal characters, the dot wildcard, the
postfix star and the pattern's own `^`/`$` anchors at its ends; any other
metacharacter — in particular an unmatched `(` or `[` — fails to compile,
as it does in Go. -/
def regexpCompile (pattern : String) : Option GoRegexp :=
  let cs := pattern.data
  let startStripped : Bool × List Char :=
    match cs with
    | '^' :: rest => (true, rest)
    | _ => (false, cs)
  let anchS := startStripped.1
  let cs1 := startStripped.2
  let anchE : Bool := cs1.getLast? = some '$'
  let body := if anchE then cs1.dropLast else cs1
  (regexParseBody body).map (fun r => ⟨r, anchS, anchE⟩)

/-- Whether the body matches a prefix of `cs` — the whole of `cs` when the
pattern is end-anchored. -/
def reMatchesStart (r : RE) (cs : List Char) (anchEnd : Bool) : Bool :=
  if anchEnd then reMatchList r cs
  else (List.range (cs.length + 1)).any (fun j => reMatchList r (cs.take j))

/-- The unanchored search of `MatchString`: the body may match starting at
any position — only at position 0 when the pattern is start-anchored. -/
def GoRegexp.matchString (g : GoRegexp) (s : String) : Bool :=
  let cs := s.data
  if g.anchStart then reMatchesStart g.re cs g.anchEnd
  else (List.range (cs.length + 1)).any
    (fun i => reMatchesStart g.re (cs.drop i) g.anchEnd)

/-- Embedding of `RegexMatcher`: the embedded base matcher plus the stored
raw pattern string (the `regex` field). -/
structure RegexMatcher where
  toMatcher : Matcher
  regex : String
deriving DecidableEq

/-- Embedding of `RegexMatcher.Match`: resolve the operand (failure gives
false), assert it to string (failure gives false), then call
`regexp.MustCompile` on the stored pattern and search the operand.
`MustCompile` runs on every evaluation and panics on an invalid pattern;
a panic is modelled as `none`, a returned boolean as `some`. -/
def RegexMatcher.Match (m : RegexMatcher) (key : String)
    (attributes : List (String × GoValue)) (bucketingKey : Option String) :
    Option Bool :=
  match m.toMatcher.matchingKey key attributes with
  | .error _ => some false
  | .ok matchingRaw =>
    match matchingRaw with
    | .str conv =>
      match regexpCompile m.regex with
      | none => none
      | some re => some (re.matchString conv)
    | _ => some false

/-- Embedding of `NewRegexMatcher`: stores the negate flag and attribute
name in the embedded base matcher and the raw pattern string in `regex`,
performing no compilation or validation. -/
def NewRegexMatcher (negate : Bool) (regex : String)
    (attributeName : Option String) : RegexMatcher :=
  { toMatcher := { negate := negate, attributeName := attributeName }
    regex := regex }

/-- Modelled from the spec: the final evaluation step for a regex matcher
applies the negate flag to the comparison result; a panic (`none`)
propagates. -/
def RegexMatcher.evaluate (m : RegexMatcher) (key : String)
    (attributes : List (String × GoValue)) (bucketingKey : Option String) :
    Option Bool :=
  (m.Match key attributes bucketingKey).map (fun b => xor b m.toMatcher.negate)

/-- Modelled from the spec: rule-load construction of a regex matcher. At
snapshot-build time an unparseable pattern is a construction-time failure
that rejects the rule; the rule-load code itself is not under src. -/
def BuildRegexMatcher (negate : Bool) (pattern : String)
    (attributeName : Option String) : Option RegexMatcher :=
  match regexpCompile pattern with
  | none => none
  | some _ => some (NewRegexMatcher negate pattern attributeName)

/-- Modelled from the spec: the `PART_OF_SET` matcher, whose implementation
is not under src (only its test is). It carries the embedded base matcher
and the stored comparison set from the whitelist data. -/
structure PartOfSetMatcher where
  toMatcher : Matcher
  comparisonSet : List String
deriving DecidableEq

/-- Modelled from the spec: `PartOfSetMatcher.Match` resolves the operand
(failure gives false), requires a set of strings (any other shape gives
false), and matches iff the operand set is non-empty and every element of
the stored comparison set is present in the operand set. -/
def PartOfSetMatcher.Match (m : PartOfSetMatcher) (key : String)
    (attributes : List (String × GoValue)) (bucketingKey : Option String) :
    Bool :=
  match m.toMatcher.matchingKey key attributes with
  | .error _ => false
  | .ok (.strList matchingSet) =>
    !matchingSet.isEmpty && m.comparisonSet.all (fun x => matchingSet.contains x)
  | .ok _ => false

/-- The `PART_OF_SET` matcher built in the test: comparison set
`{"one","two","three","four"}`, operand taken from attribute `setdata`. -/
def testPartOfSetMatcher : PartOfSetMatcher :=
  ⟨⟨false, some "setdata"⟩, ["one", "two", "three", "four"]⟩

/-- Embedding of the dynamically-typed key argument of the client's
`Treatment` method: nil, a boolean, a string, a number converted to a
string, or a `Key` object carrying a matching key and a bucketing key. -/
inductive TreatmentKey where
  | nilKey
  | boolKey (b : Bool)
  | strKey (s : String)
  | intKey (n : Int)
  | floatKey (q : Rat)
  | keyObj (matching : String) (bucketing : String)
deriving DecidableEq

/-- The control treatment returned when validation fails. -/
def controlTreatment : String := "control"

/-- Whitespace trimming on a character list: the model of the
`strings.TrimSpace` step of the validator. -/
def trimChars (cs : List Char) : List Char :=
  ((cs.dropWhile Char.isWhitespace).reverse.dropWhile Char.isWhitespace).reverse

/-- Whether a key is empty once surrounding whitespace is trimmed — the
validator's emptiness check. -/
def isEmptyAfterTrim (s : String) : Bool :=
  (trimChars s.data).isEmpty

/-- Modelled from the spec: the client-side key validation wrapper around
`Treatment` (the validator implementation is not under src; only its tests
are). A nil or boolean key, a string key that is empty after trimming
whitespace or longer than 250 characters, and a `Key` object whose
matching key or bucketing key is empty after trimming or longer than 250
characters, all yield the control treatment without evaluating; numeric
keys are converted to strings; a valid key is handed to the evaluator. -/
def checkTreatmentStr (s : String)
    (evaluator : String → Option String → String) : String :=
  if isEmptyAfterTrim s then controlTreatment
  else if 250 < s.length then controlTreatment
  else evaluator s none

/-- Modelled from the spec: dispatch of the client's `Treatment` method on
the dynamically-typed key (see `checkTreatmentStr` for the string checks). -/
def Treatment (k : TreatmentKey)
    (evaluator : String → Option String → String) : String :=
  match k with
  | .nilKey => controlTreatment
  | .boolKey _ => controlTreatment
  | .strKey s => checkTreatmentStr s evaluator
  | .intKey n => checkTreatmentStr (toString n) evaluator
  | .floatKey q => checkTreatmentStr (toString q) evaluator
  | .keyObj mk bk =>
    if isEmptyAfterTrim mk then controlTreatment
    else if 250 < mk.length then controlTreatment
    else if isEmptyAfterTrim bk then controlTreatment
    else if 250 < bk.length then controlTreatment
    else evaluator mk (some bk)

/-- The notion used by the specification of a resolved operand that is an
integer-valued number of any integer width, coerced across widths to a
common integer type. Stated from the specification's words for comparison
with the source's type-assertion sequence `goAssertInt64OrInt`. -/
def integerValuedAnyWidth : GoValue → Option Int
  | .int n => some n
  | .int64 n => some n
  | .int32 n => some n
  | _ => none

/-- Declarative meaning of an unanchored search: some decomposition of the
input into a prefix, a matched middle and a suffix exists, where the
prefix must be empty when the pattern is start-anchored and the suffix
must be empty when it is end-anchored. -/
def SearchMatches (g : GoRegexp) (cs : List Char) : Prop :=
  ∃ pre mid post, cs = pre ++ mid ++ post
    ∧ (g.anchStart = true → pre = [])
    ∧ (g.anchEnd = true → post = [])
    ∧ reMatchList g.re mid = true

theorem reMatchesStart_iff (r : RE) (cs : List Char) (ae : Bool) :
    reMatchesStart r cs ae = true ↔
      ∃ mid post, cs = mid ++ post ∧ (ae = true → post = []) ∧
        reMatchList r mid = true := by
  cases ae with
  | true =>
    simp only [reMatchesStart, if_true]
    constructor
    · intro h
      exact ⟨cs, [], by simp, fun _ => rfl, h⟩
    · rintro ⟨mid, post, hcs, hp, hm⟩
      have hp0 : post = [] := hp (by trivial)
      subst hp0
      rw [List.append_nil] at hcs
      rw [hcs]
      exact hm
  | false =>
    simp only [reMatchesStart, Bool.false_eq_true, if_false, List.any_eq_true]
    constructor
    · rintro ⟨j, hj, hm⟩
      rw [List.mem_range] at hj
      exact ⟨cs.take j, cs.drop j, (List.take_append_drop j cs).symm,
        by simp, hm⟩
    · rintro ⟨mid, post, hcs, _, hm⟩
      refine ⟨mid.length, ?_, ?_⟩
      · rw [List.mem_range, hcs]
        simp only [List.length_append]
        omega
      · rw [hcs, List.take_left]
        exact hm

theorem matchString_iff (g : GoRegexp) (s : String) :
    g.matchString s = true ↔ SearchMatches g s.data := by
  unfold GoRegexp.matchString SearchMatches
  cases hS : g.anchStart with
  | true =>
    simp only [if_true]
    rw [reMatchesStart_iff]
    constructor
    · rintro ⟨mid, post, hcs, hp, hm⟩
      exact ⟨[], mid, post, by simpa using hcs, fun _ => rfl, hp, hm⟩
    · rintro ⟨pre, mid, post, hcs, hpre, hpost, hm⟩
      have hpre0 : pre = [] := hpre (by trivial)
      subst hpre0
      exact ⟨mid, post, by simpa using hcs, hpost, hm⟩
  | false =>
    simp only [Bool.false_eq_true, if_false, List.any_eq_true]
    constructor
    · rintro ⟨i, hi, hm⟩
      rw [List.mem_range] at hi
      rw [reMatchesStart_iff] at hm
      obtain ⟨mid, post, hcs, hp, hm⟩ := hm
      refine ⟨s.data.take i, mid, post, ?_, by simp, hp, hm⟩
      rw [List.append_assoc, ← hcs, List.take_append_drop]
    · rintro ⟨pre, mid, post, hcs, _, hpost, hm⟩
      have hcs' : s.data = pre ++ (mid ++ post) := by
        rw [hcs, List.append_assoc]
      refine ⟨pre.length, ?_, ?_⟩
      · rw [List.mem_range, hcs]
        simp only [List.length_append]
        omega
      · rw [reMatchesStart_iff]
        exact ⟨mid, post, by rw [hcs', List.drop_left], hpost, hm⟩

/-- Claim C2 counterexample: with comparison-data-type Number and
comparison value 3, an `int32` operand with value 5 is an integer-valued
number of an integer width whose value is ≥ 3, yet `Match` returns false:
the type-assertion sequence of the source accepts only `int64` and `int`,
so the claim's "any integer width" fails on this input. -/
theorem claim2_counterexample :
    integerValuedAnyWidth (GoValue.int32 5) = some 5 ∧ (3 : Int) ≤ 5 ∧
      (NewGreaterThanOrEqualToMatcher false 3 datatypes.Number
        (some "num")).Match "k" [("num", GoValue.int32 5)] none = false :=
  ⟨rfl, by norm_num, by decide⟩

/-- Claim C2 (amended): for comparison-data-type Number, `Match` returns
true iff the resolved operand is a Go `int64` or `int` whose value is ≥
the comparison value; every other dynamic type — other integer widths such
as `int32`, and floating-point values in particular — makes `Match` return
false. -/
theorem claim2_gte_number (neg : Bool) (cv : Int) (a key : String)
    (attrs : List (String × GoValue)) (bk : Option String) (v : GoValue)
    (hl : attrs.lookup a = some v) :
    ((NewGreaterThanOrEqualToMatcher neg cv datatypes.Number (some a)).Match
        key attrs bk = true ↔ ∃ n, goAssertInt64OrInt v = some n ∧ cv ≤ n)
    ∧ (∀ q, v = GoValue.float64 q →
        (NewGreaterThanOrEqualToMatcher neg cv datatypes.Number (some a)).Match
          key attrs bk = false) := by
  constructor
  · simp only [GreaterThanOrEqualToMatcher.Match, Matcher.matchingKey,
      NewGreaterThanOrEqualToMatcher, hl]
    cases v <;> simp [goAssertInt64OrInt]
  · rintro q rfl
    simp only [GreaterThanOrEqualToMatcher.Match, Matcher.matchingKey,
      NewGreaterThanOrEqualToMatcher, hl]
    rfl

/-- Witness for claim C2's amended theorem: an `int64` operand of value 7
against comparison value 3 matches. -/
theorem claim2_witness :
    (NewGreaterThanOrEqualToMatcher false 3 datatypes.Number
      (some "num")).Match "k" [("num", GoValue.int64 7)] none = true :=
  (claim2_gte_number false 3 "num" "k" [("num", GoValue.int64 7)] none
      (GoValue.int64 7) rfl).1.mpr ⟨7, rfl, by norm_num⟩

/-- Claim C3: for comparison-data-type Datetime, both the integer operand
and the stored comparison value are truncated to the start of their UTC
day before the ≥ comparison, and the truncation really is day truncation:
the result is a multiple of 86400 seconds, at most the input and less than
one day below it. -/
theorem claim3_gte_datetime (neg : Bool) (cv : Int) (a key : String)
    (attrs : List (String × GoValue)) (bk : Option String) (v : GoValue)
    (n : Int) (hl : attrs.lookup a = some v)
    (hn : goAssertInt64OrInt v = some n) :
    ((NewGreaterThanOrEqualToMatcher neg cv datatypes.Datetime (some a)).Match
        key attrs bk = true ↔
      datatypes.ZeroSecondsTS cv ≤ datatypes.ZeroSecondsTS n)
    ∧ datatypes.ZeroSecondsTS n % 86400 = 0
    ∧ datatypes.ZeroSecondsTS n ≤ n
    ∧ n < datatypes.ZeroSecondsTS n + 86400 := by
  refine ⟨?_, ?_, ?_, ?_⟩
  · simp only [GreaterThanOrEqualToMatcher.Match, Matcher.matchingKey,
      NewGreaterThanOrEqualToMatcher, hl, hn]
    simp
    intro h
    exact absurd h (by decide)
  · unfold datatypes.ZeroSecondsTS
    omega
  · unfold datatypes.ZeroSecondsTS
    omega
  · unfold datatypes.ZeroSecondsTS
    omega

/-- Witness for claim C3's theorem: operand 90000 (01:00 on day 2 of the
epoch) against comparison value 86400 (start of day 2). -/
theorem claim3_witness :
    ((NewGreaterThanOrEqualToMatcher false 86400 datatypes.Datetime
        (some "d")).Match "k" [("d", GoValue.int64 90000)] none = true ↔
      datatypes.ZeroSecondsTS 86400 ≤ datatypes.ZeroSecondsTS 90000)
    ∧ datatypes.ZeroSecondsTS 90000 % 86400 = 0
    ∧ datatypes.ZeroSecondsTS 90000 ≤ 90000
    ∧ (90000 : Int) < datatypes.ZeroSecondsTS 90000 + 86400 :=
  claim3_gte_datetime false 86400 "d" "k" [("d", GoValue.int64 90000)] none
    (GoValue.int64 90000) 90000 rfl rfl

/-- Claim C10: with a comparison-data-type tag that is neither Number nor
Datetime, `GreaterThanOrEqualToMatcher.Match` returns false for every key,
attribute map and bucketing key, even when the operand resolves to a valid
integer: the default arm of the switch returns false. -/
theorem claim10_gte_unknown_datatype (neg : Bool) (cv : Int) (ct : String)
    (an : Option String) (key : String) (attrs : List (String × GoValue))
    (bk : Option String) (h1 : ct ≠ datatypes.Number)
    (h2 : ct ≠ datatypes.Datetime) :
    (NewGreaterThanOrEqualToMatcher neg cv ct an).Match key attrs bk
      = false := by
  simp only [GreaterThanOrEqualToMatcher.Match, NewGreaterThanOrEqualToMatcher]
  split
  · rfl
  · split
    · rfl
    · rw [if_neg h1, if_neg h2]

/-- Witness for claim C10's theorem: the tag "BOOLEAN" with an operand that
is a valid integer. -/
theorem claim10_witness :
    (NewGreaterThanOrEqualToMatcher false 3 "BOOLEAN" (some "num")).Match
      "k" [("num", GoValue.int64 7)] none = false :=
  claim10_gte_unknown_datatype false 3 "BOOLEAN" (some "num") "k"
    [("num", GoValue.int64 7)] none (by decide) (by decide)

/-- Claim C1: no matcher variant panics on a rule the snapshot accepted.
`GreaterThanOrEqualToMatcher.Match` is total; for a regex matcher accepted
at rule load (where an unparseable pattern is a construction-time failure,
as modelled in `BuildRegexMatcher`), `Match` never panics: every
evaluation returns a boolean (`isSome`), all error and missing-data paths
having resolved to false before negation. -/
theorem claim1_matchers_never_panic (neg : Bool) (p : String)
    (an : Option String) (rm : RegexMatcher) (key : String)
    (attrs : List (String × GoValue)) (bk : Option String) (neg2 : Bool)
    (cv : Int) (ct : String) (an2 : Option String)
    (hb : BuildRegexMatcher neg p an = some rm) :
    (rm.Match key attrs bk).isSome = true
    ∧ ((NewGreaterThanOrEqualToMatcher neg2 cv ct an2).Match key attrs bk
          = true
        ∨ (NewGreaterThanOrEqualToMatcher neg2 cv ct an2).Match key attrs bk
          = false) := by
  constructor
  · have hc : ∃ g, regexpCompile p = some g := by
      unfold BuildRegexMatcher at hb
      cases hcp : regexpCompile p with
      | none => rw [hcp] at hb; exact absurd hb (by simp)
      | some g => exact ⟨g, rfl⟩
    obtain ⟨g, hg⟩ := hc
    have hrm : rm = NewRegexMatcher neg p an := by
      unfold BuildRegexMatcher at hb
      rw [hg] at hb
      exact (Option.some_inj.mp hb).symm
    subst hrm
    simp only [RegexMatcher.Match, NewRegexMatcher]
    cases hmk : Matcher.matchingKey ⟨neg, an⟩ key attrs with
    | error e => rfl
    | ok raw =>
      cases raw <;> simp [hg]
  · cases h : (NewGreaterThanOrEqualToMatcher neg2 cv ct an2).Match
        key attrs bk with
    | true => exact Or.inl rfl
    | false => exact Or.inr rfl

/-- Witness for claim C1's theorem: the pattern "ab" is accepted at rule
load, and the resulting matcher evaluates without a panic. -/
theorem claim1_witness :
    ((NewRegexMatcher false "ab" none).Match "zabz" [] none).isSome = true
    ∧ ((NewGreaterThanOrEqualToMatcher false 3 "NUMBER" none).Match
          "zabz" [] none = true
        ∨ (NewGreaterThanOrEqualToMatcher false 3 "NUMBER" none).Match
          "zabz" [] none = false) :=
  claim1_matchers_never_panic false "ab" none (NewRegexMatcher false "ab" none)
    "zabz" [] none false 3 "NUMBER" none (by decide)

/-- Claim C4 counterexample: the stored pattern is not compiled once at
matcher construction — `NewRegexMatcher` stores the raw string "[" without
validating it, and `Match` then calls `regexp.MustCompile` on every
evaluation, so on a string operand the invalid stored pattern panics at
evaluation time (modelled as `none`) instead of returning a boolean. -/
theorem claim4_counterexample :
    (NewRegexMatcher true "[" (some "s")).regex = "["
    ∧ regexpCompile "[" = none
    ∧ (NewRegexMatcher true "[" (some "s")).Match "k"
        [("s", GoValue.str "x")] none = none :=
  ⟨rfl, by decide, by decide⟩

/-- Claim C4 (amended): for every operand that resolves to a string, when
the stored pattern compiles, `Match` returns true iff an unanchored search
of the pattern succeeds somewhere in the operand string, honoring only the
pattern's own anchors; the pattern is stored raw at construction and
compiled on each evaluation, so an invalid stored pattern panics at
evaluation time. -/
theorem claim4_regex_search (neg : Bool) (p a key s : String)
    (attrs : List (String × GoValue)) (bk : Option String) (g : GoRegexp)
    (hc : regexpCompile p = some g)
    (hl : attrs.lookup a = some (GoValue.str s)) :
    ((NewRegexMatcher neg p (some a)).Match key attrs bk = some true
      ↔ SearchMatches g s.data) := by
  simp only [RegexMatcher.Match, NewRegexMatcher, Matcher.matchingKey, hl, hc]
  rw [Option.some_inj]
  exact matchString_iff g s

/-- Witness for claim C4's amended theorem: searching for "b" inside "abc"
succeeds with prefix "a", matched middle "b" and suffix "c". -/
theorem claim4_witness :
    (NewRegexMatcher false "b" (some "s")).Match "k"
      [("s", GoValue.str "abc")] none = some true :=
  (claim4_regex_search false "b" "s" "k" "abc" [("s", GoValue.str "abc")]
      none ⟨RE.chr 'b', false, false⟩ (by decide) rfl).mpr
    ⟨['a'], ['b'], ['c'], by decide, by simp, by simp, by decide⟩

/-- Claim C6: operand resolution is shared by every matcher variant — with
an attribute name set, the operand is that attribute; without one, the
matching key itself; and a missing attribute or a failed coercion to the
variant's required type yields false (before negation) in both variants
under src. -/
theorem claim6_operand_resolution (neg : Bool) (cv : Int) (ct p key : String)
    (attrs : List (String × GoValue)) (bk : Option String)
    (aMiss aStr aInt aAny : String) (v : GoValue) (s : String) (z : Int)
    (hMiss : attrs.lookup aMiss = none)
    (hStr : attrs.lookup aStr = some (GoValue.str s))
    (hInt : attrs.lookup aInt = some (GoValue.int64 z))
    (hAny : attrs.lookup aAny = some v) :
    ((NewGreaterThanOrEqualToMatcher neg cv ct (some aMiss)).Match key attrs
        bk = false)
    ∧ ((NewRegexMatcher neg p (some aMiss)).Match key attrs bk = some false)
    ∧ (Matcher.matchingKey ⟨neg, none⟩ key attrs = .ok (.str key))
    ∧ (Matcher.matchingKey ⟨neg, some aAny⟩ key attrs = .ok v)
    ∧ ((NewGreaterThanOrEqualToMatcher neg cv ct (some aStr)).Match key attrs
        bk = false)
    ∧ ((NewRegexMatcher neg p (some aInt)).Match key attrs bk = some false) := by
  refine ⟨?_, ?_, rfl, ?_, ?_, ?_⟩
  · simp [GreaterThanOrEqualToMatcher.Match, NewGreaterThanOrEqualToMatcher,
      Matcher.matchingKey, hMiss]
  · simp [RegexMatcher.Match, NewRegexMatcher, Matcher.matchingKey, hMiss]
  · simp [Matcher.matchingKey, hAny]
  · simp [GreaterThanOrEqualToMatcher.Match, NewGreaterThanOrEqualToMatcher,
      Matcher.matchingKey, hStr, goAssertInt64OrInt]
  · simp [RegexMatcher.Match, NewRegexMatcher, Matcher.matchingKey, hInt]

/-- Witness for claim C6's theorem: attribute "s" holds a string, "i"
holds an int64, "m" is missing. -/
theorem claim6_witness :
    ((NewGreaterThanOrEqualToMatcher false 3 "NUMBER" (some "m")).Match "k"
        [("s", GoValue.str "x"), ("i", GoValue.int64 0)] none = false)
    ∧ ((NewRegexMatcher false "a" (some "m")).Match "k"
        [("s", GoValue.str "x"), ("i", GoValue.int64 0)] none = some false)
    ∧ (Matcher.matchingKey ⟨false, none⟩ "k"
        [("s", GoValue.str "x"), ("i", GoValue.int64 0)]
          = .ok (.str "k"))
    ∧ (Matcher.matchingKey ⟨false, some "s"⟩ "k"
        [("s", GoValue.str "x"), ("i", GoValue.int64 0)]
          = .ok (GoValue.str "x"))
    ∧ ((NewGreaterThanOrEqualToMatcher false 3 "NUMBER" (some "s")).Match "k"
        [("s", GoValue.str "x"), ("i", GoValue.int64 0)] none = false)
    ∧ ((NewRegexMatcher false "a" (some "i")).Match "k"
        [("s", GoValue.str "x"), ("i", GoValue.int64 0)] none = some false) :=
  claim6_operand_resolution false 3 "NUMBER" "a" "k"
    [("s", GoValue.str "x"), ("i", GoValue.int64 0)] none "m" "s" "i" "s"
    (GoValue.str "x") "x" 0 (by decide) (by decide) (by decide) (by decide)

/-- Claim C7: the negation law — flipping the stored negate flag of a
matcher negates its final evaluation result on every input, since the
final result is the comparison result XOR negate and the comparison result
does not read the negate field. -/
theorem claim7_negation_law (neg : Bool) (cv : Int) (ct p : String)
    (an : Option String) (key : String) (attrs : List (String × GoValue))
    (bk : Option String) :
    ((NewGreaterThanOrEqualToMatcher (!neg) cv ct an).evaluate key attrs bk
      = !((NewGreaterThanOrEqualToMatcher neg cv ct an).evaluate key attrs bk))
    ∧ ((NewRegexMatcher (!neg) p an).evaluate key attrs bk
      = Option.map (fun b => !b)
          ((NewRegexMatcher neg p an).evaluate key attrs bk)) := by
  constructor
  · simp only [GreaterThanOrEqualToMatcher.evaluate]
    rw [show (NewGreaterThanOrEqualToMatcher (!neg) cv ct an).toMatcher.negate
        = !neg from rfl]
    rw [show (NewGreaterThanOrEqualToMatcher neg cv ct an).toMatcher.negate
        = neg from rfl]
    rw [show (NewGreaterThanOrEqualToMatcher (!neg) cv ct an).Match key attrs
        bk = (NewGreaterThanOrEqualToMatcher neg cv ct an).Match key attrs
        bk from rfl]
    generalize (NewGreaterThanOrEqualToMatcher neg cv ct an).Match key attrs
      bk = b
    cases b <;> cases neg <;> rfl
  · simp only [RegexMatcher.evaluate]
    rw [show (NewRegexMatcher (!neg) p an).toMatcher.negate = !neg from rfl]
    rw [show (NewRegexMatcher neg p an).toMatcher.negate = neg from rfl]
    rw [show (NewRegexMatcher (!neg) p an).Match key attrs bk
        = (NewRegexMatcher neg p an).Match key attrs bk from rfl]
    generalize (NewRegexMatcher neg p an).Match key attrs bk = ob
    cases ob with
    | none => rfl
    | some b => cases b <;> cases neg <;> rfl

/-- Claim C8: determinism — with the matcher structures immutable and the
evaluation a pure read of them, two evaluations of either matcher variant
on the same key, attribute map and bucketing key return the same result. -/
theorem claim8_deterministic (gm : GreaterThanOrEqualToMatcher)
    (rm : RegexMatcher) (key : String) (attrs : List (String × GoValue))
    (bk : Option String) :
    gm.Match key attrs bk = gm.Match key attrs bk
    ∧ rm.Match key attrs bk = rm.Match key attrs bk
    ∧ gm.evaluate key attrs bk = gm.evaluate key attrs bk
    ∧ rm.evaluate key attrs bk = rm.evaluate key attrs bk :=
  ⟨rfl, rfl, rfl, rfl⟩

/-- Claim C5: the `PART_OF_SET` matcher with comparison set
{"one","two","three","four"} matches the equal operand set and the
superset including "five", and rejects the empty operand set and the
proper subset {"one","two","three"}; in general it matches iff the
comparison set is a subset of the operand set and the operand set is
non-empty. -/
theorem claim5_part_of_set (cmp ms : List String) (an key : String)
    (bk : Option String) :
    (PartOfSetMatcher.Match ⟨⟨false, some an⟩, cmp⟩ key
        [(an, GoValue.strList ms)] bk = true
      ↔ ((∀ x ∈ cmp, x ∈ ms) ∧ ms ≠ []))
    ∧ testPartOfSetMatcher.Match "asd"
        [("setdata", GoValue.strList ["one", "two", "three", "four"])] none
        = true
    ∧ testPartOfSetMatcher.Match "asd"
        [("setdata",
          GoValue.strList ["one", "two", "three", "four", "five"])] none
        = true
    ∧ testPartOfSetMatcher.Match "asd"
        [("setdata", GoValue.strList [])] none = false
    ∧ testPartOfSetMatcher.Match "asd"
        [("setdata", GoValue.strList ["one", "two", "three"])] none
        = false := by
  refine ⟨?_, by decide, by decide, by decide, by decide⟩
  simp only [PartOfSetMatcher.Match, Matcher.matchingKey, List.lookup,
    beq_self_eq_true, if_true]
  simp [List.isEmpty_iff, and_comm]

/-- Claim C9: key validation — a `Treatment` call whose plain string key,
or whose `Key` object's matching key or bucketing key, is empty,
whitespace-only or longer than 250 characters returns the control
treatment instead of evaluating the flag; nil and boolean keys are
likewise rejected. -/
theorem claim9_treatment_key_validation
    (evaluator : String → Option String → String) (s mk bk mk2 bk2 : String)
    (hs : isEmptyAfterTrim s = true ∨ 250 < s.length)
    (hm : isEmptyAfterTrim mk = true ∨ 250 < mk.length)
    (hb : isEmptyAfterTrim bk2 = true ∨ 250 < bk2.length) :
    Treatment (.strKey s) evaluator = controlTreatment
    ∧ Treatment (.keyObj mk bk) evaluator = controlTreatment
    ∧ Treatment (.keyObj mk2 bk2) evaluator = controlTreatment
    ∧ Treatment .nilKey evaluator = controlTreatment
    ∧ Treatment (.boolKey true) evaluator = controlTreatment := by
  refine ⟨?_, ?_, ?_, rfl, rfl⟩
  · simp only [Treatment, checkTreatmentStr]
    rcases hs with h | h
    · rw [if_pos h]
    · by_cases h0 : isEmptyAfterTrim s = true
      · rw [if_pos h0]
      · rw [if_neg h0, if_pos h]
  · simp only [Treatment]
    rcases hm with h | h
    · rw [if_pos h]
    · by_cases h0 : isEmptyAfterTrim mk = true
      · rw [if_pos h0]
      · rw [if_neg h0, if_pos h]
  · simp only [Treatment]
    by_cases h1 : isEmptyAfterTrim mk2 = true
    · rw [if_pos h1]
    · rw [if_neg h1]
      by_cases h2 : 250 < mk2.length
      · rw [if_pos h2]
      · rw [if_neg h2]
        rcases hb with h | h
        · rw [if_pos h]
        · by_cases h3 : isEmptyAfterTrim bk2 = true
          · rw [if_pos h3]
          · rw [if_neg h3, if_pos h]

/-- Witness for claim C9's theorem: a whitespace-only string key, a `Key`
object with an empty matching key, and a `Key` object with a valid
matching key but an empty bucketing key all yield the control treatment. -/
theorem claim9_witness :
    Treatment (.strKey "   ") (fun _ _ => "TreatmentA") = controlTreatment
    ∧ Treatment (.keyObj "" "bucketing") (fun _ _ => "TreatmentA")
        = controlTreatment
    ∧ Treatment (.keyObj "matching" "") (fun _ _ => "TreatmentA")
        = controlTreatment
    ∧ Treatment .nilKey (fun _ _ => "TreatmentA") = controlTreatment
    ∧ Treatment (.boolKey true) (fun _ _ => "TreatmentA")
        = controlTreatment :=
  claim9_treatment_key_validation (fun _ _ => "TreatmentA") "   " ""
    "bucketing" "matching" "" (Or.inl (by decide)) (Or.inl (by decide))
    (Or.inl (by decide))

end SplitGo
